import Mathlib

/-!
Verification of the HTTP-client core of `src/WebBrowserApp/client.py`
(`WebBrowserModel.connect_to_server`, `close_connection`, `send_request`,
the request-building line of `WebBrowserView.search_address`, and the
`WebBrowserController` wrappers), as a shallow embedding: strings are
`List Char` / `String`, byte buffers are `List Nat`, socket effects are
explicit state passing, and Python exceptions are the error side of
`Except`.
-/

set_option linter.unusedVariables false

namespace BasicHTTPBrowser

/-- Python exceptions that the client code can raise or catch.
`socketError` stands for `socket.error` (= `OSError`, which the builtin
`ConnectionError` family and `socket.gaierror` subclass); `valueError`
for the `ValueError` raised by a failing tuple unpacking; and
`unicodeDecodeError` for the `UnicodeDecodeError` raised by
`bytes.decode()` on invalid UTF-8. -/
inductive PyExc where
  | socketError
  | valueError
  | unicodeDecodeError
deriving DecidableEq

/-- `startsWith sep s` is true when the list `s` begins with the list `sep`
(Python scanning primitive behind `str.split`). -/
def startsWith : List Char → List Char → Bool
  | [], _ => true
  | _ :: _, [] => false
  | a :: as, b :: bs => a == b && startsWith as bs

/-- Leftmost-occurrence search used by Python `str.split(sep)`:
`splitFirst sep s = some (pre, post)` when `s = pre ++ sep ++ post` with the
occurrence of `sep` at the leftmost possible position, and `none` when `sep`
does not occur in `s` (for nonempty `sep`). -/
def splitFirst (sep : List Char) : List Char → Option (List Char × List Char)
  | [] => none
  | c :: cs =>
    if startsWith sep (c :: cs) then some ([], (c :: cs).drop sep.length)
    else (splitFirst sep cs).map (fun p => (c :: p.1, p.2))

/-- Fuelled core of Python `str.split(sep)` for a nonempty separator: split
at each non-overlapping occurrence of `sep`, left to right.  One unit of
fuel is spent per separator occurrence; since a nonempty separator consumes
at least one character per occurrence, fuel `s.length` is always enough. -/
def pySplitFuel (sep : List Char) : Nat → List Char → List (List Char)
  | 0, s => [s]
  | Nat.succ fuel, s =>
    match splitFirst sep s with
    | none => [s]
    | some (p, q) => p :: pySplitFuel sep fuel q

/-- Python `str.split(sep)` for a nonempty separator `sep`. -/
def pySplit (sep s : List Char) : List (List Char) := pySplitFuel sep s.length s

/-- The literal separator `'<html>'` of `client.py` line 78. -/
def marker : List Char := ['<', 'h', 't', 'm', 'l', '>']

/-- Lines 78-79 of `client.py`:
`heading, body = response_message_decoded.split('<html>')` followed by
`body = f'<html>' + f'{body}'`.  The two-element tuple unpacking raises
`ValueError` unless the split yields exactly two pieces, i.e. unless
`'<html>'` occurs exactly once in the text. -/
def split_body (text : List Char) : Except PyExc (List Char) :=
  match pySplit marker text with
  | [heading, body] => Except.ok (marker ++ body)
  | _ => Except.error PyExc.valueError

/-- Check for a UTF-8 continuation byte (`0x80..0xBF`). -/
def isCont (b : Nat) : Bool := decide (0x80 ≤ b ∧ b < 0xC0)

/-- Decode one UTF-8 scalar value from the front of a byte list, strict mode
as in Python `bytes.decode()`: rejects truncated sequences, stray or
missing continuation bytes, overlong encodings, surrogates and values
above `0x10FFFF`.  Returns the code point and the remaining bytes. -/
def utf8DecodeOne : List Nat → Option (Nat × List Nat)
  | [] => none
  | b :: bs =>
    if b < 0x80 then some (b, bs)
    else if 0xC2 ≤ b ∧ b ≤ 0xDF then
      match bs with
      | b1 :: bs1 =>
        if isCont b1 then some ((b - 0xC0) * 0x40 + (b1 - 0x80), bs1) else none
      | [] => none
    else if 0xE0 ≤ b ∧ b ≤ 0xEF then
      match bs with
      | b1 :: b2 :: bs2 =>
        if (if b = 0xE0 then decide (0xA0 ≤ b1 ∧ b1 < 0xC0)
            else if b = 0xED then decide (0x80 ≤ b1 ∧ b1 < 0xA0)
            else isCont b1) && isCont b2 then
          some ((b - 0xE0) * 0x1000 + (b1 - 0x80) * 0x40 + (b2 - 0x80), bs2)
        else none
      | _ => none
    else if 0xF0 ≤ b ∧ b ≤ 0xF4 then
      match bs with
      | b1 :: b2 :: b3 :: bs3 =>
        if (if b = 0xF0 then decide (0x90 ≤ b1 ∧ b1 < 0xC0)
            else if b = 0xF4 then decide (0x80 ≤ b1 ∧ b1 < 0x90)
            else isCont b1) && isCont b2 && isCont b3 then
          some ((b - 0xF0) * 0x40000 + (b1 - 0x80) * 0x1000 + (b2 - 0x80) * 0x40
                  + (b3 - 0x80), bs3)
        else none
      | _ => none
    else none

/-- Fuelled UTF-8 decoding loop; each step consumes at least one byte, so
fuel equal to the byte count is always enough. -/
def utf8DecodeFuel : Nat → List Nat → Option (List Char)
  | _, [] => some []
  | 0, _ :: _ => none
  | Nat.succ fuel, b :: bs =>
    match utf8DecodeOne (b :: bs) with
    | none => none
    | some (n, rest) => (utf8DecodeFuel fuel rest).map (fun cs => Char.ofNat n :: cs)

/-- Python `bytes.decode()` (strict UTF-8): `some` of the decoded text, or
`none` when the bytes are not valid UTF-8 (in which case the Python call
raises `UnicodeDecodeError`). -/
def utf8Decode (bytes : List Nat) : Option (List Char) :=
  utf8DecodeFuel bytes.length bytes

/-- UTF-8 encoding of one character, as done by Python `str.encode()`. -/
def utf8EncodeChar (c : Char) : List Nat :=
  let n := c.toNat
  if n < 0x80 then [n]
  else if n < 0x800 then [0xC0 + n / 0x40, 0x80 + n % 0x40]
  else if n < 0x10000 then
    [0xE0 + n / 0x1000, 0x80 + n / 0x40 % 0x40, 0x80 + n % 0x40]
  else
    [0xF0 + n / 0x40000, 0x80 + n / 0x1000 % 0x40, 0x80 + n / 0x40 % 0x40,
     0x80 + n % 0x40]

/-- Python `str.encode()`: UTF-8 encoding of a text. -/
def utf8Encode (s : List Char) : List Nat := (s.map utf8EncodeChar).flatten

/-- Receive-buffer size of the single `recv` call (`client.py` line 72). -/
def BUFSIZE : Nat := 4096

/-- State of a TCP client socket as the code under test can observe it:
whether `send`/`recv` raise `socket.error`, the bytes the peer has made
available for reading (`pending`), and observation logs of the bytes
written so far (`sent`) and of each `recv` result (`reads`). -/
structure SocketState where
  sendFails : Bool
  recvFails : Bool
  pending : List Nat
  sent : List Nat
  reads : List (List Nat)
deriving DecidableEq

/-- `WebBrowserModel.send_request` (`client.py` lines 53-84): encode the
request, `send` it, `recv(4096)` once, decode the bytes, split the decoded
text on `'<html>'` by two-element tuple unpacking, and return
`'<html>' + body`.  The surrounding `try`/`except socket.error` turns a
send or receive failure into the return value `''`; a `ValueError` from
the unpacking or a `UnicodeDecodeError` from `decode()` is not caught and
propagates.  The `host` argument is never used by the body. -/
def send_request (host : List Char) (request_message : List Char)
    (client_socket : SocketState) : Except PyExc (List Char) × SocketState :=
  if client_socket.sendFails then
    (Except.ok [], client_socket)
  else
    let s1 : SocketState :=
      { client_socket with sent := client_socket.sent ++ utf8Encode request_message }
    if s1.recvFails then
      (Except.ok [], s1)
    else
      let response_message := s1.pending.take BUFSIZE
      let s2 : SocketState :=
        { s1 with
          pending := s1.pending.drop BUFSIZE
          reads := s1.reads ++ [response_message] }
      match utf8Decode response_message with
      | none => (Except.error PyExc.unicodeDecodeError, s2)
      | some decoded => (split_body decoded, s2)

/-- The fixed destination port of `connect_to_server` (`client.py` line 23). -/
def PORT : Nat := 80

/-- The network as `connect_to_server` can observe it: the outcome of the
i-th connection attempt to a given (host, port) pair — `some` connected
socket, or `none` when the attempt raises `socket.error` (resolution
failure, closed port, timeout). -/
structure NetworkEnv where
  attempt : List Char → Nat → Nat → Option SocketState

/-- `WebBrowserModel.connect_to_server` (`client.py` lines 14-30): create a
TCP socket and issue a single `connect((host, 80))` call — attempt number
0, no retry.  A failing connect raises `socket.error`, which the method
does not catch, so it propagates to the caller. -/
def connect_to_server (env : NetworkEnv) (host : List Char) :
    Except PyExc SocketState :=
  match env.attempt host PORT 0 with
  | some client_socket => Except.ok client_socket
  | none => Except.error PyExc.socketError

/-- A socket handle as `close_connection` observes it: whether the socket
currently has a peer (so `getpeername()` succeeds) and whether the
`close()` call itself raises `socket.error`. -/
structure CloseHandle where
  connected : Bool
  closeFails : Bool
deriving DecidableEq

/-- Observable outcome of `close_connection`: the socket was closed, or the
failure was caught and merely printed. -/
inductive CloseOutcome where
  | closed
  | loggedNonFatal
deriving DecidableEq

/-- `socket.getpeername()` (`client.py` line 44): raises `socket.error`
when the socket is not connected to a peer. -/
def getpeername (client_socket : CloseHandle) : Except PyExc Unit :=
  if client_socket.connected then Except.ok () else Except.error PyExc.socketError

/-- `socket.close()` (`client.py` line 47) as a fallible primitive. -/
def closeRaw (client_socket : CloseHandle) : Except PyExc Unit :=
  if client_socket.closeFails then Except.error PyExc.socketError else Except.ok ()

/-- `WebBrowserModel.close_connection` (`client.py` lines 33-50):
`try: getpeername(); close() except socket.error: print(...)`.
Only `socket.error` is caught; any other exception would propagate, but
both primitives can only raise `socket.error`. -/
def close_connection (client_socket : CloseHandle) : Except PyExc CloseOutcome :=
  match getpeername client_socket >>= fun _ => closeRaw client_socket with
  | Except.ok _ => Except.ok CloseOutcome.closed
  | Except.error PyExc.socketError => Except.ok CloseOutcome.loggedNonFatal
  | Except.error e => Except.error e

/-- `WebBrowserController.connect_to_server` (`client.py` lines 206-207):
calls the model method, discards its return value, and falls off the end
of the function — returning Python `None` (here `none`).  An exception
raised by the model propagates. -/
def controller_connect_to_server (env : NetworkEnv) (host : List Char) :
    Except PyExc (Option SocketState) :=
  match connect_to_server env host with
  | Except.ok _ => Except.ok none
  | Except.error e => Except.error e

/-- `WebBrowserController.send_request` (`client.py` lines 214-215): calls
the model method, discards its return value, and returns Python `None`.
An exception raised by the model propagates; the socket side effects
still happen. -/
def controller_send_request (host request_message : List Char)
    (client_socket : SocketState) :
    Except PyExc (Option (List Char)) × SocketState :=
  let r := send_request host request_message client_socket
  (match r.1 with
   | Except.ok _ => Except.ok none
   | Except.error e => Except.error e,
   r.2)

/-- Line 144 of `client.py`, the request-building f-string of
`WebBrowserView.search_address`:
`f'GET /{resource_url} HTTP/1.1\r\nHost: {server_address}\r\n\r\n'`. -/
def build (host resourcePath : String) : String :=
  s!"GET /{resourcePath} HTTP/1.1\r\nHost: {host}\r\n\r\n"

theorem startsWith_iff (sep s : List Char) :
    startsWith sep s = true ↔ ∃ t, s = sep ++ t := by
  induction sep generalizing s with
  | nil => simp [startsWith]
  | cons a as ih =>
    cases s with
    | nil => simp [startsWith]
    | cons b bs =>
      simp only [startsWith, Bool.and_eq_true, beq_iff_eq, ih]
      constructor
      · rintro ⟨rfl, t, rfl⟩
        exact ⟨t, rfl⟩
      · rintro ⟨t, hteq⟩
        injection hteq with h1 h2
        exact ⟨h1.symm, t, h2⟩

theorem splitFirst_cons_none {sep : List Char} {c : Char} {cs : List Char}
    (h : splitFirst sep (c :: cs) = none) :
    startsWith sep (c :: cs) = false ∧ splitFirst sep cs = none := by
  cases hsw : startsWith sep (c :: cs) with
  | true =>
    exfalso
    rw [splitFirst, if_pos hsw] at h
    exact Option.noConfusion h
  | false =>
    refine ⟨rfl, ?_⟩
    rw [splitFirst, if_neg (by simp [hsw])] at h
    cases hsf : splitFirst sep cs with
    | none => rfl
    | some p =>
      rw [hsf] at h
      exact Option.noConfusion h

theorem no_straddle {c0 : Char} {rest h b : List Char}
    (hc0 : c0 ∉ rest) (hh : splitFirst (c0 :: rest) h = none)
    (hsw : startsWith (c0 :: rest) (h ++ (c0 :: rest) ++ b) = true) : h = [] := by
  cases h with
  | nil => rfl
  | cons c htl =>
    exfalso
    obtain ⟨t, ht⟩ := (startsWith_iff (c0 :: rest) _).mp hsw
    rw [List.append_assoc] at ht
    by_cases hk : (c0 :: rest).length ≤ (c :: htl).length
    · have h1 : (c :: htl).take (c0 :: rest).length = c0 :: rest := by
        have h' := congrArg (List.take (c0 :: rest).length) ht
        rw [List.take_append_eq_append_take, Nat.sub_eq_zero_of_le hk,
          List.take_zero, List.append_nil, List.take_left] at h'
        exact h'
      have hpre : startsWith (c0 :: rest) (c :: htl) = true := by
        refine (startsWith_iff _ _).mpr ⟨(c :: htl).drop (c0 :: rest).length, ?_⟩
        conv_lhs => rw [← List.take_append_drop (c0 :: rest).length (c :: htl)]
        rw [h1]
      have := (splitFirst_cons_none hh).1
      rw [hpre] at this
      exact Bool.noConfusion this
    · have hk' : (c :: htl).length < (c0 :: rest).length := Nat.lt_of_not_le hk
      have h1 : c :: htl = (c0 :: rest).take (c :: htl).length := by
        have h' := congrArg (List.take (c :: htl).length) ht
        rw [List.take_left, List.take_append_eq_append_take,
          Nat.sub_eq_zero_of_le (Nat.le_of_lt hk'), List.take_zero,
          List.append_nil] at h'
        exact h'
      have hdrop : (c0 :: rest) ++ b = (c0 :: rest).drop (c :: htl).length ++ t := by
        have h' := congrArg (List.drop (c :: htl).length) ht
        rw [List.drop_left, List.drop_append_eq_append_drop,
          Nat.sub_eq_zero_of_le (Nat.le_of_lt hk'), List.drop_zero] at h'
        exact h'
      have hulen : ((c0 :: rest).drop (c :: htl).length).length
          = (c0 :: rest).length - (c :: htl).length := List.length_drop _ _
      have hu : (c0 :: rest).take ((c0 :: rest).length - (c :: htl).length)
          = (c0 :: rest).drop (c :: htl).length := by
        have h' := congrArg
          (List.take (((c0 :: rest).drop (c :: htl).length).length)) hdrop
        rw [List.take_left, hulen, List.take_append_eq_append_take,
          Nat.sub_eq_zero_of_le (Nat.sub_le _ _), List.take_zero,
          List.append_nil] at h'
        exact h'
      obtain ⟨j, hj⟩ : ∃ j, (c0 :: rest).length - (c :: htl).length = j + 1 :=
        ⟨(c0 :: rest).length - (c :: htl).length - 1, by omega⟩
      have hhead : (c0 :: rest).drop (c :: htl).length = c0 :: rest.take j := by
        rw [← hu, hj, List.take_succ_cons]
      have htail : (c0 :: rest).drop (c :: htl).length = rest.drop htl.length := by
        rw [List.length_cons, List.drop_succ_cons]
      have hc0mem : c0 ∈ rest.drop htl.length := by
        rw [← htail, hhead]
        exact List.mem_cons_self _ _
      exact hc0 (List.mem_of_mem_drop hc0mem)

theorem splitFirst_append {c0 : Char} {rest : List Char} (hc0 : c0 ∉ rest)
    (h b : List Char) (hh : splitFirst (c0 :: rest) h = none) :
    splitFirst (c0 :: rest) (h ++ (c0 :: rest) ++ b) = some (h, b) := by
  induction h with
  | nil =>
    have hsw : startsWith (c0 :: rest) (c0 :: (rest ++ b)) = true :=
      (startsWith_iff _ _).mpr ⟨b, by simp⟩
    show splitFirst (c0 :: rest) (c0 :: (rest ++ b)) = some ([], b)
    rw [splitFirst, if_pos hsw, List.length_cons, List.drop_succ_cons,
      List.drop_left]
  | cons c htl ih =>
    obtain ⟨hsw0, htail⟩ := splitFirst_cons_none hh
    have ihh := ih htail
    have hnsw : startsWith (c0 :: rest) (c :: (htl ++ (c0 :: rest) ++ b)) = false := by
      cases hcase : startsWith (c0 :: rest) (c :: (htl ++ (c0 :: rest) ++ b)) with
      | false => rfl
      | true =>
        exfalso
        have hnil : c :: htl = ([] : List Char) := no_straddle hc0 hh hcase
        exact List.noConfusion hnil
    simp only [List.append_assoc, List.cons_append] at ihh hnsw
    show splitFirst (c0 :: rest) (c :: (htl ++ (c0 :: rest) ++ b)) = some (c :: htl, b)
    rw [splitFirst, if_neg (by simp [hnsw])]
    simp [ihh]

theorem pySplitFuel_of_none {sep s : List Char} (h : splitFirst sep s = none)
    (fuel : Nat) : pySplitFuel sep fuel s = [s] := by
  cases fuel with
  | zero => rfl
  | succ f => simp only [pySplitFuel, h]

theorem pySplit_two {sep s p q : List Char} (hs : splitFirst sep s = some (p, q))
    (hq : splitFirst sep q = none) : pySplit sep s = [p, q] := by
  cases s with
  | nil => exact Option.noConfusion hs
  | cons c cs =>
    show pySplitFuel sep (c :: cs).length (c :: cs) = [p, q]
    rw [List.length_cons]
    simp only [pySplitFuel, hs]
    rw [pySplitFuel_of_none hq]

theorem marker_head_unique : ('<' : Char) ∉ (['h', 't', 'm', 'l', '>'] : List Char) := by
  decide

theorem toString_string_id (s : String) : toString s = s := rfl

theorem split_body_of_no_marker {T : List Char} (h : splitFirst marker T = none) :
    split_body T = Except.error PyExc.valueError := by
  rw [split_body, pySplit, pySplitFuel_of_none h]

/-- Sanity check against CPython: `'A<html>B'.split('<html>')` is
`['A', 'B']` and `'A<html>B<html>C'.split('<html>')` is `['A','B','C']`. -/
theorem check_pySplit_occurrences :
    pySplit marker "A<html>B".toList = ["A".toList, "B".toList] ∧
    pySplit marker "A<html>B<html>C".toList
      = ["A".toList, "B".toList, "C".toList] := by decide

/-- Sanity check against CPython: the splitter on exactly one occurrence
returns the marker-prefixed body. -/
theorem check_split_body_single : split_body "H<html>B".toList
    = Except.ok "<html>B".toList := rfl

/-- Sanity check of the UTF-8 codec: an ASCII round trip, a lone invalid
byte, and a plain two-byte ASCII buffer. -/
theorem check_utf8_codec :
    utf8Decode (utf8Encode "abc".toList) = some "abc".toList ∧
    utf8Decode [0xFF] = none ∧
    utf8Decode [72, 84] = some ['H', 'T'] := by decide

/-- Sanity check of the exchange model: a response with exactly one
`'<html>'` marker yields the marker-prefixed body. -/
theorem check_send_request_ok :
    (send_request "h".toList "m".toList
        ⟨false, false, utf8Encode "X<html>Y".toList, [], []⟩).1
      = Except.ok "<html>Y".toList := rfl

/-- Sanity check of the close model on a disconnected and on a connected
handle. -/
theorem check_close_connection :
    close_connection ⟨false, false⟩ = Except.ok CloseOutcome.loggedNonFatal ∧
    close_connection ⟨true, false⟩ = Except.ok CloseOutcome.closed := ⟨rfl, rfl⟩

/-- Sanity check of the request builder at a concrete address. -/
theorem check_build_concrete : build "example.com" "a.html"
    = "GET /a.html HTTP/1.1\r\nHost: example.com\r\n\r\n" := rfl

/-- C1 counterexample: for the decoded text `T = "A" ++ "<html>" ++ "B<html>C"`
(header `"A"` contains no `"<html>"`, but the body part does), the split
operation of `send_request` does not return `"<html>B<html>C"`: the
two-element tuple unpacking of `str.split` sees three pieces and raises
`ValueError`, so the claim's "no restriction on whether B itself contains
further `<html>` occurrences" is false on the code. -/
theorem c1_counterexample :
    split_body ("A<html>B<html>C".toList) = Except.error PyExc.valueError := rfl

/-- C1 (amended): for every decoded response text `T = H ++ "<html>" ++ B`
where `H` contains no occurrence of `"<html>"` and additionally `B`
contains no occurrence of `"<html>"` (so the marker occurs exactly once in
`T`), the split operation applied to `T` returns exactly `"<html>" ++ B`:
the header `H` is discarded, the consumed marker is re-prepended. -/
theorem c1_split_roundtrip (H B : List Char)
    (hH : splitFirst marker H = none) (hB : splitFirst marker B = none) :
    split_body (H ++ marker ++ B) = Except.ok (marker ++ B) := by
  have h1 : splitFirst marker (H ++ marker ++ B) = some (H, B) :=
    splitFirst_append marker_head_unique H B hH
  rw [split_body, pySplit_two h1 hB]

/-- C1 witness: the amended round-trip theorem applied at a concrete header
and body. -/
theorem c1_split_roundtrip_witness :
    split_body ("HTTP/1.1 200 OK".toList ++ marker ++ "<body>hi</body>".toList)
      = Except.ok (marker ++ "<body>hi</body>".toList) :=
  c1_split_roundtrip ("HTTP/1.1 200 OK".toList) ("<body>hi</body>".toList)
    (by decide) (by decide)

/-- C2 counterexample: a received buffer whose decoded text
(`"HTTP/1.1 200 OK\r\n\r\nPLAINTEXT"`) contains no `"<html>"` makes
`send_request` end in a `ValueError` that the `except socket.error` clause
does not catch: the failure is a propagated unhandled exception, not a
catchable `MalformedResponseError` result returned to the caller (no such
error type exists anywhere in the code). -/
theorem c2_counterexample :
    (send_request "127.0.0.1".toList
        "GET / HTTP/1.1\r\nHost: 127.0.0.1\r\n\r\n".toList
        ⟨false, false, utf8Encode "HTTP/1.1 200 OK\r\n\r\nPLAINTEXT".toList, [], []⟩).1
      = Except.error PyExc.valueError := rfl

/-- C2 (amended): on an established connection, when the received bytes
decode to a text with no `"<html>"` occurrence `send_request` propagates an
uncaught `ValueError`, and when the received bytes fail to decode it
propagates an uncaught `UnicodeDecodeError`; in neither case is a catchable
error value returned to the caller. -/
theorem c2_crash_propagation (host request_message : List Char) (sock : SocketState)
    (hs : sock.sendFails = false) (hr : sock.recvFails = false) :
    (∀ T, utf8Decode (sock.pending.take BUFSIZE) = some T →
        splitFirst marker T = none →
        (send_request host request_message sock).1 = Except.error PyExc.valueError) ∧
    (utf8Decode (sock.pending.take BUFSIZE) = none →
        (send_request host request_message sock).1
          = Except.error PyExc.unicodeDecodeError) := by
  constructor
  · intro T hdec hnoMarker
    simp only [send_request, hs, hr, Bool.false_eq_true, if_false, hdec]
    exact split_body_of_no_marker hnoMarker
  · intro hdec
    simp only [send_request, hs, hr, Bool.false_eq_true, if_false, hdec]

/-- C2 witness: the amended theorem applied at a concrete no-marker buffer
and at a concrete invalid-UTF-8 buffer. -/
theorem c2_crash_propagation_witness :
    (send_request "h".toList "m".toList
        ⟨false, false, utf8Encode "NOBODY".toList, [], []⟩).1
        = Except.error PyExc.valueError ∧
    (send_request "h".toList "m".toList ⟨false, false, [0xFF], [], []⟩).1
        = Except.error PyExc.unicodeDecodeError :=
  ⟨(c2_crash_propagation "h".toList "m".toList _ rfl rfl).1 ("NOBODY".toList)
      (by decide) (by decide),
   (c2_crash_propagation "h".toList "m".toList _ rfl rfl).2 (by decide)⟩

/-- C3: for every non-empty host and every resource path (the empty string
included), the request-building f-string produces exactly
`"GET /" ++ resourcePath ++ " HTTP/1.1\r\nHost: " ++ host ++ "\r\n\r\n"`,
character for character (hence byte for byte under UTF-8), with both
inputs inserted verbatim and no additional headers. -/
theorem c3_build_exact (host resourcePath : String) (hhost : host ≠ "") :
    build host resourcePath
      = "GET /" ++ resourcePath ++ " HTTP/1.1\r\nHost: " ++ host ++ "\r\n\r\n" ∧
    (build host resourcePath).toList
      = "GET /".toList ++ resourcePath.toList ++ " HTTP/1.1\r\nHost: ".toList
          ++ host.toList ++ "\r\n\r\n".toList := by
  constructor
  · simp [build, toString_string_id, String.append_assoc]
  · simp [build, toString_string_id, String.toList, String.data_append]

/-- C3 witness: the exact-format theorem applied at a concrete host and
resource path. -/
theorem c3_build_exact_witness :
    build "example.com" "page.html"
      = "GET /" ++ "page.html" ++ " HTTP/1.1\r\nHost: " ++ "example.com"
          ++ "\r\n\r\n" ∧
    (build "example.com" "page.html").toList
      = "GET /".toList ++ "page.html".toList ++ " HTTP/1.1\r\nHost: ".toList
          ++ "example.com".toList ++ "\r\n\r\n".toList :=
  c3_build_exact "example.com" "page.html" (by decide)

/-- C4: whenever the transport-level send or receive fails with
`socket.error`, `send_request` returns the empty string to its caller
instead of propagating the exception (`except socket.error: return ''`). -/
theorem c4_transport_failure_empty (host request_message : List Char)
    (sock : SocketState)
    (h : sock.sendFails = true ∨ sock.recvFails = true) :
    (send_request host request_message sock).1 = Except.ok [] := by
  cases hsend : sock.sendFails with
  | true => simp only [send_request, hsend, if_true]
  | false =>
    cases hrecv : sock.recvFails with
    | true => simp only [send_request, hsend, hrecv, Bool.false_eq_true, if_false, if_true]
    | false =>
      exfalso
      rcases h with h | h
      · rw [hsend] at h; exact Bool.noConfusion h
      · rw [hrecv] at h; exact Bool.noConfusion h

/-- C4 witness: the empty-result theorem applied to a connection whose send
fails and to one whose receive fails. -/
theorem c4_transport_failure_empty_witness :
    (send_request "h".toList "m".toList ⟨true, false, [], [], []⟩).1 = Except.ok [] ∧
    (send_request "h".toList "m".toList ⟨false, true, [72], [], []⟩).1 = Except.ok [] :=
  ⟨c4_transport_failure_empty "h".toList "m".toList _ (Or.inl rfl),
   c4_transport_failure_empty "h".toList "m".toList _ (Or.inr rfl)⟩

/-- C5: on an established connection `send_request` performs exactly one
bounded read: the reads log grows by exactly one entry, that entry is the
first (at most 4096) pending bytes, and the outcome is the same as if the
peer had sent only those first 4096 bytes — a larger response is silently
truncated, never an error of its own. -/
theorem c5_single_bounded_read (host request_message : List Char)
    (sock : SocketState)
    (hs : sock.sendFails = false) (hr : sock.recvFails = false) :
    (send_request host request_message sock).2.reads
        = sock.reads ++ [sock.pending.take BUFSIZE] ∧
    (sock.pending.take BUFSIZE).length ≤ BUFSIZE ∧
    (send_request host request_message sock).2.pending = sock.pending.drop BUFSIZE ∧
    (send_request host request_message sock).1
      = (send_request host request_message
          { sock with pending := sock.pending.take BUFSIZE }).1 := by
  refine ⟨?_, ?_, ?_, ?_⟩
  · cases hdec : utf8Decode (sock.pending.take BUFSIZE) <;>
      simp [send_request, hs, hr, hdec]
  · rw [List.length_take]
    exact Nat.min_le_left _ _
  · cases hdec : utf8Decode (sock.pending.take BUFSIZE) <;>
      simp [send_request, hs, hr, hdec]
  · cases hdec : utf8Decode (sock.pending.take BUFSIZE) <;>
      simp [send_request, hs, hr, hdec, List.take_take]

/-- C5 witness: the single-bounded-read theorem applied at a concrete
connection state. -/
theorem c5_single_bounded_read_witness :
    (send_request "h".toList "m".toList
        ⟨false, false, [60, 61], [9], [[7]]⟩).2.reads
        = (⟨false, false, [60, 61], [9], [[7]]⟩ : SocketState).reads
            ++ [([60, 61] : List Nat).take BUFSIZE] ∧
    (([60, 61] : List Nat).take BUFSIZE).length ≤ BUFSIZE ∧
    (send_request "h".toList "m".toList
        ⟨false, false, [60, 61], [9], [[7]]⟩).2.pending
        = ([60, 61] : List Nat).drop BUFSIZE ∧
    (send_request "h".toList "m".toList ⟨false, false, [60, 61], [9], [[7]]⟩).1
      = (send_request "h".toList "m".toList
          { (⟨false, false, [60, 61], [9], [[7]]⟩ : SocketState) with
              pending := ([60, 61] : List Nat).take BUFSIZE }).1 :=
  c5_single_bounded_read "h".toList "m".toList _ rfl rfl

/-- C6: `close_connection` never lets an error reach its caller: on every
handle — connected or not, with a failing or a succeeding `close()` — the
`try`/`except socket.error` either closes the socket or logs the failure
as non-fatal, and the result is always a normal return. -/
theorem c6_close_never_raises (client_socket : CloseHandle) :
    ∃ outcome, close_connection client_socket = Except.ok outcome := by
  cases client_socket with
  | mk connected closeFails =>
    cases connected <;> cases closeFails <;> exact ⟨_, rfl⟩

/-- C7: `connect_to_server` performs exactly one connection attempt, to
port 80 and attempt index 0 — its result depends only on the outcome of
that single attempt — and when that attempt fails the `socket.error`
(the `ConnectionError` of the spec's taxonomy) is surfaced to the caller
immediately, with no retry. -/
theorem c7_connect_single_attempt (env1 env2 : NetworkEnv) (host : List Char)
    (hsame : env1.attempt host PORT 0 = env2.attempt host PORT 0) :
    connect_to_server env1 host = connect_to_server env2 host ∧
    (env1.attempt host PORT 0 = none →
      connect_to_server env1 host = Except.error PyExc.socketError) := by
  constructor
  · rw [connect_to_server, connect_to_server, hsame]
  · intro hnone
    rw [connect_to_server, hnone]

/-- C7 witness: the single-attempt theorem applied to a network on which
every attempt fails. -/
theorem c7_connect_single_attempt_witness :
    connect_to_server ⟨fun _ _ _ => none⟩ "unreachable.example".toList
      = Except.error PyExc.socketError :=
  (c7_connect_single_attempt ⟨fun _ _ _ => none⟩ ⟨fun _ _ _ => none⟩
      "unreachable.example".toList rfl).2 rfl

/-- C8: the request builder is pure and deterministic — equal inputs yield
equal outputs, it is a total function on strings (it never fails), and as
a Lean function it has no side effect. -/
theorem c8_build_pure (host1 resourcePath1 host2 resourcePath2 : String)
    (hh : host1 = host2) (hp : resourcePath1 = resourcePath2) :
    build host1 resourcePath1 = build host2 resourcePath2 := by
  rw [hh, hp]

/-- C8 witness: determinism of `build` applied at a concrete input pair. -/
theorem c8_build_pure_witness :
    build "example.com" "index.html" = build "example.com" "index.html" :=
  c8_build_pure "example.com" "index.html" "example.com" "index.html" rfl rfl

/-- C9: the controller wrappers call the model and discard its return
value: whenever the model's `connect_to_server` returns a socket the
controller returns `None`, and whenever the model's `send_request` returns
a body string the controller returns `None` — a caller going through
`WebBrowserController` receives neither the socket nor the body. -/
theorem c9_controller_discards (env : NetworkEnv) (host request_message : List Char)
    (sock : SocketState) :
    (∀ s, connect_to_server env host = Except.ok s →
        controller_connect_to_server env host = Except.ok none) ∧
    (∀ body, (send_request host request_message sock).1 = Except.ok body →
        (controller_send_request host request_message sock).1 = Except.ok none) := by
  constructor
  · intro s hok
    rw [controller_connect_to_server, hok]
  · intro body hok
    show (match (send_request host request_message sock).1 with
          | Except.ok _ => Except.ok none
          | Except.error e => Except.error e) = Except.ok none
    rw [hok]

/-- C9 witness: the discarding theorem applied at a network that connects
successfully and a connection state whose exchange succeeds. -/
theorem c9_controller_discards_witness :
    controller_connect_to_server ⟨fun _ _ _ => some ⟨false, false, [], [], []⟩⟩
        "h".toList = Except.ok none ∧
    (controller_send_request "h".toList "m".toList
        ⟨false, false, utf8Encode "<html>x".toList, [], []⟩).1 = Except.ok none :=
  ⟨(c9_controller_discards ⟨fun _ _ _ => some ⟨false, false, [], [], []⟩⟩
        "h".toList "m".toList ⟨false, false, utf8Encode "<html>x".toList, [], []⟩).1
      ⟨false, false, [], [], []⟩ rfl,
   (c9_controller_discards ⟨fun _ _ _ => some ⟨false, false, [], [], []⟩⟩
        "h".toList "m".toList ⟨false, false, utf8Encode "<html>x".toList, [], []⟩).2
      "<html>x".toList rfl⟩

/-- C10: noninterference of the unused `host` parameter — for any two host
values and the same request message and connection state, `send_request`
produces the identical result and the identical final socket state. -/
theorem c10_host_not_used (host1 host2 request_message : List Char)
    (sock : SocketState) :
    send_request host1 request_message sock
      = send_request host2 request_message sock := rfl

end BasicHTTPBrowser
